import Mathlib

/-!
Verification of the anomaly-normalization core of the `aca_indice_climatico`
repository.  The Python scripts are embedded shallowly: gridded series become
lists of `(Date, value)` pairs for one spatial cell (spatial cells are handled
by universally quantifying over the per-cell inputs), floating-point values
become rationals, and the non-finite IEEE values produced by division by a
zero standard deviation become an explicit extended-value type.
-/

/-- A calendar timestamp as the scripts use it: `time.dt.year`, `time.dt.month`
and `time.dt.day` accessors.  Monthly-resolution series use `day = 1`. -/
structure Date where
  year : Int
  month : Nat
  day : Nat
deriving DecidableEq

/-- A single-cell time series: one value per timestamp, in time order. -/
abbrev Series := List (Date × ℚ)

namespace Precip
/-! Embedding of `src/scripts/anomalies_precipitation.py`. -/

/-- One row of the dataset built by `alinear_data`: the daily (or derived)
value together with the baseline statistics aligned to its calendar month. -/
structure AlignedRow where
  time : Date
  tp_daily_sum : ℚ
  mean_tp : ℚ
  std_tp : ℚ
deriving DecidableEq

/-- One row after `anomalias` has added the `anomalias` variable. -/
structure AnomRow where
  time : Date
  tp_daily_sum : ℚ
  mean_tp : ℚ
  std_tp : ℚ
  anomalias : ℚ
deriving DecidableEq

/-- Function `alinear_data` (lines 103-119): select `mean_tp` and `std_tp` at
`month = data1.time.dt.month` and assign them as new variables alongside the
data.  The baseline is a per-cell map from calendar month to the statistic. -/
def alinear_data (data1 : Series) (mean_tp std_tp : Nat → ℚ) : List AlignedRow :=
  data1.map (fun e => ⟨e.1, e.2, mean_tp e.1.month, std_tp e.1.month⟩)

/-- Function `anomalias` (lines 121-131): assign
`anomalias = (tp_daily_sum - mean_tp) / std_tp` row-wise. -/
def anomalias (data : List AlignedRow) : List AnomRow :=
  data.map (fun r => ⟨r.time, r.tp_daily_sum, r.mean_tp, r.std_tp,
    (r.tp_daily_sum - r.mean_tp) / r.std_tp⟩)

/-- The binarization step of `calcular_interpolacion` (lines 257-259):
data.where(data < 0.001, other=1) followed by
data.where(data >= 0.001, other=0) maps a day with precipitation at least
`0.001` to `1` and every other day to `0`. -/
def binarize (p : ℚ) : ℚ :=
  if p < 1/1000 then 0 else 1

/-- Plain inclusive prefix sums, the elementwise meaning of `cumsum`. -/
def cumsum (l : List ℚ) : List ℚ :=
  (List.range l.length).map (fun i => ((l.take (i+1)).sum))

/-- The largest multiplicity among the elements of a list: the `counts.max()`
of `np.unique(data, return_counts=True)`. -/
def maxFreq (l : List ℚ) : Nat :=
  (l.map (fun v => l.count v)).foldr max 0

/-- Function `count_most_frequent_with_condition` (lines 213-230): the maximal
multiplicity, minus one when the value `0` does not occur in the data. -/
def count_most_frequent_with_condition (data : List ℚ) : Int :=
  if (0 : ℚ) ∈ data then (maxFreq data : Int) else (maxFreq data : Int) - 1

/-- The per-year CDD value: binarize the daily precipitation of the year, take the
cumulative sum, and apply `count_most_frequent_with_condition`. -/
def cddYearValue (precip : List ℚ) : Int :=
  count_most_frequent_with_condition (cumsum (precip.map binarize))

/-- Grouped cumulative sum, `data.groupby(time.year).cumsum(dim=time)` (line 262): a running sum
threaded through the list, kept separately for each calendar year.  The
accumulator maps a year to the sum of the values already seen in that year. -/
def cumsumByYearGo (acc : Int → ℚ) : Series → Series
  | [] => []
  | (d, v) :: rest =>
      (d, acc d.year + v) ::
        cumsumByYearGo (fun y => if y = d.year then acc y + v else acc y) rest

/-- The grouped cumulative sum of a series, starting from an empty state. -/
def cumsumByYear (s : Series) : Series :=
  cumsumByYearGo (fun _ => 0) s

/-- Number of timestamps of calendar year `y` in the series: the
`len(datos_anno[time])` of the year-filtering loop (lines 249-252). -/
def yearCount (s : Series) (y : Int) : Nat :=
  (s.filter (fun e => decide (e.1.year = y))).length

/-- The years kept by the filtering loop of `calcular_interpolacion`
(lines 243-252): unique years with at least 365 samples. -/
def anos_validos (s : Series) : List Int :=
  ((s.map (fun e => e.1.year)).dedup).filter (fun y => decide (365 ≤ yearCount s y))

/-- Year filtering, `data.sel(time=np.isin(data[time.year], anos_validos))` (line 255):
keep exactly the samples whose year is valid. -/
def filtrar_data (s : Series) : Series :=
  s.filter (fun e => decide (e.1.year ∈ anos_validos s))

/-- The annual CDD values produced by `calcular_interpolacion` before the
monthly interpolation: per valid year, the binarize / grouped-cumsum /
most-frequent-count composition applied to the samples of that year. -/
def calcular_interpolacion_per_year (s : Series) : List (Int × Int) :=
  let f := filtrar_data s
  ((f.map (fun e => e.1.year)).dedup).map
    (fun y => (y, cddYearValue ((f.filter (fun e => decide (e.1.year = y))).map (fun e => e.2))))

/-- The entry of a series at a position, with a junk default used only at
positions that are never reached by the rolling-window logic. -/
def entryAt (s : Series) (i : Nat) : Date × ℚ :=
  s.getD i (⟨0, 0, 0⟩, 0)

/-- The trailing window of up to five positions ending at position `i`:
what `rolling(time=5, min-periods=1)` looks at. -/
def window5 (s : Series) (i : Nat) : Series :=
  (s.take (i+1)).drop (i - 4)

/-- The value of `data.rolling(time=5, min-periods=1).sum()` at position `i`. -/
def rollingVal (s : Series) (i : Nat) : ℚ :=
  ((window5 s i).map (fun e => e.2)).sum

/-- The mask of `calcular_5_dias_maximo` (lines 149-155):
month minus month shifted by 4 equals 0.  At positions before `4` the shifted
month is missing (`NaN`), so the comparison is false and the row is dropped;
elsewhere the row is kept when the month numbers four positions apart agree. -/
def maskAt (s : Series) (i : Nat) : Bool :=
  4 ≤ i && (entryAt s i).1.month == (entryAt s (i - 4)).1.month

/-- The rows surviving the where(mask, drop=True) step (line 158):
rolling sums at mask-true positions, keyed by their timestamp. -/
def keptRows (s : Series) : Series :=
  (List.range s.length).filterMap
    (fun i => if maskAt s i then some ((entryAt s i).1, rollingVal s i) else none)

/-- The `(year, month)` key a timestamp falls into under `resample(time=1M)`. -/
def monthKey (d : Date) : Int × Nat :=
  (d.year, d.month)

/-- Maximum of a nonempty list of rationals (empty list defaults to `0`;
the resample groups it is applied to are nonempty by construction). -/
def maxD : List ℚ → ℚ
  | [] => 0
  | x :: xs => xs.foldl max x

/-- Monthly maxima, `resample(time=1M).max()` over the kept rows: one maximum per
`(year, month)` group that actually contains a kept row. -/
def monthlyMax (rows : Series) : List ((Int × Nat) × ℚ) :=
  ((rows.map (fun r => monthKey r.1)).dedup).map
    (fun k => (k, maxD ((rows.filter (fun r => decide (monthKey r.1 = k))).map (fun r => r.2))))

/-- Function `calcular_5_dias_maximo` (lines 135-163): rolling 5-position sums, the
same-month mask with drop, then the per-calendar-month maximum. -/
def calcular_5_dias_maximo (s : Series) : List ((Int × Nat) × ℚ) :=
  monthlyMax (keptRows s)

end Precip

namespace Lluvia
/-! Embedding of `src/scripts/calcular_anomalias_lluvia.py`. -/

/-- Function `count_most_frequent_with_condition` (lines 141-155) of the yearly
anomaly script: despite a docstring identical to the one in
`anomalies_precipitation.py`, the body unconditionally returns
`counts.max() - 1`. -/
def count_most_frequent_with_condition (data : List ℚ) : Int :=
  (Precip.maxFreq data : Int) - 1

/-- The per-month value assembled by `calcular_interpolacion`
(lines 181-209).  `prior` is the carry raster loaded from
the datos-maximos file of the previous year; it is `none` in the bootstrap branch taken for
1961, where `CDD = count * (month / 12)`.  Otherwise
`new = (month != 12) ? ((12 - month)/12) * prior + (month/12) * current : current`. -/
def calcular_interpolacion_month (prior : Option ℚ) (current : ℚ) (m : Nat) : ℚ :=
  match prior with
  | none => current * ((m : ℚ) / 12)
  | some pr =>
      if m = 12 then current
      else ((12 - (m : ℚ)) / 12) * pr + ((m : ℚ) / 12) * current

/-- The full monthly CDD table for one year, months `1` to `12`
(`expand_dims(month=np.arange(1, 13))`). -/
def calcular_interpolacion (prior : Option ℚ) (current : ℚ) : List (Nat × ℚ) :=
  (List.range 12).map (fun i => (i + 1, calcular_interpolacion_month prior current (i + 1)))

end Lluvia

/-- An IEEE-like scalar as the temperature-anomaly script sees it: finite,
one of the two infinities, or NaN.  Standardizing with a zero standard
deviation produces one of the non-finite alternatives. -/
inductive Flt where
  | fin (q : ℚ)
  | inf
  | neginf
  | nan
deriving DecidableEq

/-- Finiteness test, the pointwise content of the negated isinf mask combined
with the NaN handling of `fillna`. -/
def Flt.isFinite : Flt → Bool
  | .fin _ => true
  | _ => false

namespace CalcularAnomalias
/-! Embedding of `src/scripts/calcular_anomalias.py`. -/

/-- Function `calculate_anomalies` (lines 31-33): `(count_data - mean) / std_dev`
under IEEE semantics — a zero divisor yields an infinity whose sign follows
the numerator, or NaN when the numerator is also zero. -/
def calculate_anomalies (count_data mean std_dev : ℚ) : Flt :=
  if std_dev = 0 then
    if 0 < count_data - mean then .inf
    else if count_data - mean < 0 then .neginf
    else .nan
  else .fin ((count_data - mean) / std_dev)

/-- Line 89: the isinf masking step
turns either infinity into a missing value (NaN). -/
def maskInf : Flt → Flt
  | .inf => .nan
  | .neginf => .nan
  | v => v

/-- Line 90: fillna(0) replaces NaN by `0`. -/
def fillna0 : Flt → Flt
  | .nan => .fin 0
  | v => v

/-- The cleaning pipeline applied before averaging (lines 89-90). -/
def anomalies_cleaned (v : Flt) : Flt :=
  fillna0 (maskInf v)

/-- The rational content of a cleaned value (cleaned values are finite). -/
def toRat : Flt → ℚ
  | .fin q => q
  | _ => 0

/-- Line 93: the spatial mean over the cleaned cell values,
the mean over latitude and longitude of the cleaned values. -/
def averages (cells : List Flt) : ℚ :=
  ((cells.map (fun v => toRat (anomalies_cleaned v))).sum) / (cells.length : ℚ)

end CalcularAnomalias

namespace GraficasFinales
/-! Embedding of the ICA assembly in `src/scripts/graficas_finales.py`
(`plot_ICA`, lines 176-186).  Each component CSV becomes a list of rows keyed
by the month-start date; each left merge becomes a lookup that is
`none` when the date is absent, and the arithmetic of line 186 propagates
missingness like NaN. -/

/-- First-match lookup of a date key, the row matching of a pandas merge on
`date` when the right table has unique dates. -/
def lookupCol {α : Type} : List (Date × α) → Date → Option α
  | [], _ => none
  | (d, v) :: rest, key => if d = key then some v else lookupCol rest key

/-- The ICA table: one row per wind date (the left table of every merge),
carrying the composite value when all four merges found the date. -/
def plot_ICA (wind : List (Date × ℚ)) (temp : List (Date × (ℚ × ℚ)))
    (rain drought : List (Date × ℚ)) : List (Date × Option ℚ) :=
  wind.map (fun e =>
    (e.1, match lookupCol temp e.1, lookupCol rain e.1, lookupCol drought e.1 with
          | some (t90, t10), some p, some dr => some ((t90 - t10 + e.2 + p + dr) / 5)
          | _, _, _ => none))

/-- The ICA value at a given date: the `ICA` column of the row whose `date`
matches, missing when there is no such row or the cell is NaN. -/
def icaAt (wind : List (Date × ℚ)) (temp : List (Date × (ℚ × ℚ)))
    (rain drought : List (Date × ℚ)) (d : Date) : Option ℚ :=
  (lookupCol (plot_ICA wind temp rain drought) d).bind id

end GraficasFinales

/-- The 10-day dry/wet pattern of the testable-properties section, rendered as
daily precipitation: dry days (pattern value 1) get precipitation `0`, wet
days get `1`. -/
def patternTenDays : List ℚ := [0, 0, 0, 1, 0, 0, 1, 0, 0, 0]

/-- A daily series `1, 2, 3, 4, 5` inside a single calendar month. -/
def exSingleMonth : Series :=
  [(⟨2000, 1, 1⟩, 1), (⟨2000, 1, 2⟩, 2), (⟨2000, 1, 3⟩, 3),
   (⟨2000, 1, 4⟩, 4), (⟨2000, 1, 5⟩, 5)]

/-- A gap-free daily series whose final month (February 2000) only has days
within four days of the month start. -/
def exShortFeb : Series :=
  [(⟨2000, 1, 28⟩, 1), (⟨2000, 1, 29⟩, 1), (⟨2000, 1, 30⟩, 1), (⟨2000, 1, 31⟩, 1),
   (⟨2000, 2, 1⟩, 100), (⟨2000, 2, 2⟩, 100)]

/-- A two-year wet-indicator series crossing the 2000 to 2001 boundary. -/
def exTwoYears : Series :=
  [(⟨2000, 12, 30⟩, 1), (⟨2000, 12, 31⟩, 1), (⟨2001, 1, 1⟩, 1), (⟨2001, 1, 2⟩, 1)]

/-- A year-2000 series with exactly 365 daily samples of zero precipitation. -/
def s365W : Series := (List.range 365).map (fun i => (⟨2000, 1, i + 1⟩, (0 : ℚ)))

/-! ## Helper lemmas -/

theorem foldl_max_choice (xs : List ℚ) : ∀ (a : ℚ), xs.foldl max a = a ∨ xs.foldl max a ∈ xs := by
  induction xs with
  | nil => exact fun a => Or.inl rfl
  | cons x xs ih =>
    intro a
    rw [List.foldl_cons]
    rcases ih (max a x) with h | h
    · rw [h]
      rcases le_total a x with hax | hxa
      · right
        rw [max_eq_right hax]
        exact List.mem_cons_self x xs
      · left
        rw [max_eq_left hxa]
    · right
      exact List.mem_cons_of_mem x h

theorem le_foldl_max (xs : List ℚ) : ∀ (a : ℚ), a ≤ xs.foldl max a ∧ ∀ x ∈ xs, x ≤ xs.foldl max a := by
  induction xs with
  | nil => exact fun a => ⟨le_refl a, by simp⟩
  | cons x xs ih =>
    intro a
    obtain ⟨h1, h2⟩ := ih (max a x)
    rw [List.foldl_cons]
    constructor
    · exact le_trans (le_max_left a x) h1
    · intro y hy
      rcases List.mem_cons.mp hy with hy | hy
      · subst hy
        exact le_trans (le_max_right a y) h1
      · exact h2 y hy

theorem maxD_mem (l : List ℚ) (h : l ≠ []) : Precip.maxD l ∈ l := by
  cases l with
  | nil => exact absurd rfl h
  | cons x xs =>
    show xs.foldl max x ∈ x :: xs
    rcases foldl_max_choice xs x with h1 | h1
    · rw [h1]; exact List.mem_cons_self x xs
    · exact List.mem_cons_of_mem x h1

theorem le_maxD (l : List ℚ) (x : ℚ) (h : x ∈ l) : x ≤ Precip.maxD l := by
  cases l with
  | nil => simp at h
  | cons y ys =>
    show x ≤ ys.foldl max y
    rcases List.mem_cons.mp h with hx | hx
    · exact hx ▸ (le_foldl_max ys y).1
    · exact (le_foldl_max ys y).2 x hx

theorem le_foldr_max_nat (xs : List ℕ) (x : ℕ) (h : x ∈ xs) : x ≤ xs.foldr max 0 := by
  induction xs with
  | nil => simp at h
  | cons y ys ih =>
    rw [List.foldr_cons]
    rcases List.mem_cons.mp h with hx | hx
    · subst hx
      exact le_max_left x _
    · exact le_trans (ih hx) (le_max_right y _)

theorem foldr_max_nat_choice (xs : List ℕ) : xs.foldr max 0 = 0 ∨ xs.foldr max 0 ∈ xs := by
  induction xs with
  | nil => exact Or.inl rfl
  | cons y ys ih =>
    rw [List.foldr_cons]
    rcases le_total y (ys.foldr max 0) with hle | hle
    · rw [max_eq_right hle]
      rcases ih with h | h
      · exact Or.inl h
      · exact Or.inr (List.mem_cons_of_mem y h)
    · rw [max_eq_left hle]
      exact Or.inr (List.mem_cons_self y ys)

theorem count_le_maxFreq (l : List ℚ) (v : ℚ) (h : v ∈ l) : l.count v ≤ Precip.maxFreq l :=
  le_foldr_max_nat _ _ (List.mem_map_of_mem (fun v => l.count v) h)

theorem maxFreq_attained (l : List ℚ) (h : l ≠ []) : ∃ v ∈ l, l.count v = Precip.maxFreq l := by
  rcases foldr_max_nat_choice (l.map fun v => l.count v) with h0 | hm
  · exfalso
    cases l with
    | nil => exact h rfl
    | cons x xs =>
      have hx : (x :: xs).count x ≤ Precip.maxFreq (x :: xs) :=
        count_le_maxFreq _ x (List.mem_cons_self x xs)
      have hpos : 0 < (x :: xs).count x := List.count_pos_iff.mpr (List.mem_cons_self x xs)
      have : Precip.maxFreq (x :: xs) = 0 := h0
      omega
  · obtain ⟨v, hv, hcount⟩ := List.mem_map.mp hm
    exact ⟨v, hv, hcount⟩

theorem cumsumByYearGo_length (acc : Int → ℚ) (s : Series) :
    (Precip.cumsumByYearGo acc s).length = s.length := by
  induction s generalizing acc with
  | nil => rfl
  | cons e rest ih =>
    obtain ⟨d, v⟩ := e
    simp [Precip.cumsumByYearGo, ih]

theorem cumsumByYearGo_getD (s : Series) :
    ∀ (acc : Int → ℚ) (i : Nat), i < s.length →
      (Precip.cumsumByYearGo acc s).getD i (⟨0, 0, 0⟩, 0)
        = ((s.getD i (⟨0, 0, 0⟩, 0)).1,
           acc (s.getD i (⟨0, 0, 0⟩, 0)).1.year
             + (((s.take (i + 1)).filter
                   (fun e => decide (e.1.year = (s.getD i (⟨0, 0, 0⟩, 0)).1.year))).map
                 (fun e => e.2)).sum) := by
  induction s with
  | nil =>
    intro acc i h
    simp at h
  | cons e rest ih =>
    obtain ⟨d, v⟩ := e
    intro acc i h
    cases i with
    | zero =>
      simp [Precip.cumsumByYearGo]
    | succ i =>
      have h2 : i < rest.length := by simpa using h
      have hrec := ih (fun y => if y = d.year then acc y + v else acc y) i h2
      simp only [Precip.cumsumByYearGo, List.getD_cons_succ, List.take_succ_cons,
        List.filter_cons] at hrec ⊢
      rw [hrec]
      by_cases hy : (rest.getD i (⟨0, 0, 0⟩, 0)).1.year = d.year
      · simp only [hy, decide_eq_true_eq, eq_self_iff_true, if_true, List.map_cons,
          List.sum_cons]
        rw [Prod.mk.injEq]
        refine ⟨rfl, ?_⟩
        ring
      · have hy2 : ¬ d.year = (rest.getD i (⟨0, 0, 0⟩, 0)).1.year := fun hc => hy hc.symm
        simp only [if_neg hy, decide_eq_true_eq, if_neg hy2]

theorem cumsumByYear_entry (s : Series) (i : Nat) (h : i < s.length) :
    Precip.entryAt (Precip.cumsumByYear s) i
      = ((Precip.entryAt s i).1,
         (((s.take (i + 1)).filter
             (fun e => decide (e.1.year = (Precip.entryAt s i).1.year))).map
           (fun e => e.2)).sum) := by
  have hgo := cumsumByYearGo_getD s (fun _ => 0) i h
  simpa [Precip.entryAt, Precip.cumsumByYear] using hgo

theorem lookupCol_isSome_iff {α : Type} (l : List (Date × α)) (d : Date) :
    (∃ v, GraficasFinales.lookupCol l d = some v) ↔ d ∈ l.map Prod.fst := by
  induction l with
  | nil => simp [GraficasFinales.lookupCol]
  | cons e rest ih =>
    obtain ⟨d0, v0⟩ := e
    by_cases hd : d0 = d
    · subst hd
      simp [GraficasFinales.lookupCol]
    · have hd2 : ¬ d = d0 := fun hc => hd hc.symm
      simp [GraficasFinales.lookupCol, hd, hd2, ih]

theorem lookupCol_eq_of_mem {α : Type} (l : List (Date × α)) (d : Date) (v : α)
    (hnd : (l.map Prod.fst).Nodup) (h : (d, v) ∈ l) :
    GraficasFinales.lookupCol l d = some v := by
  induction l with
  | nil => simp at h
  | cons e rest ih =>
    obtain ⟨d0, v0⟩ := e
    rw [List.map_cons, List.nodup_cons] at hnd
    rcases List.mem_cons.mp h with he | he
    · rw [Prod.mk.injEq] at he
      obtain ⟨h1, h2⟩ := he
      subst h1
      subst h2
      simp [GraficasFinales.lookupCol]
    · have hd : ¬ d0 = d := by
        intro hdd
        subst hdd
        have hmem : d0 ∈ rest.map Prod.fst := by
          simpa using List.mem_map_of_mem Prod.fst he
        exact hnd.1 hmem
      simp only [GraficasFinales.lookupCol, if_neg hd]
      exact ih hnd.2 he

theorem keptRows_mem_iff (s : Series) (r : Date × ℚ) :
    r ∈ Precip.keptRows s ↔
      ∃ i, i < s.length ∧ Precip.maskAt s i = true ∧
        r = ((Precip.entryAt s i).1, Precip.rollingVal s i) := by
  constructor
  · intro h
    obtain ⟨i, hi, hopt⟩ := List.mem_filterMap.mp h
    rw [List.mem_range] at hi
    by_cases hm : Precip.maskAt s i
    · rw [if_pos hm] at hopt
      exact ⟨i, hi, hm, (Option.some_inj.mp hopt).symm⟩
    · rw [if_neg hm] at hopt
      cases hopt
  · rintro ⟨i, hi, hm, rfl⟩
    exact List.mem_filterMap.mpr ⟨i, List.mem_range.mpr hi, by rw [if_pos hm]⟩

theorem monthlyMax_mem (rows : Series) (k : Int × Nat) (v : ℚ)
    (h : (k, v) ∈ Precip.monthlyMax rows) :
    (∃ r ∈ rows, Precip.monthKey r.1 = k ∧ r.2 = v) ∧
      ∀ r ∈ rows, Precip.monthKey r.1 = k → r.2 ≤ v := by
  obtain ⟨k0, hk0, hkv⟩ := List.mem_map.mp h
  rw [Prod.mk.injEq] at hkv
  obtain ⟨hk, hv⟩ := hkv
  subst hk
  have hkmem : k0 ∈ rows.map (fun r => Precip.monthKey r.1) := List.mem_dedup.mp hk0
  obtain ⟨r0, hr0, hr0k⟩ := List.mem_map.mp hkmem
  constructor
  · have hr0f : r0 ∈ rows.filter (fun r => decide (Precip.monthKey r.1 = k0)) :=
      List.mem_filter.mpr ⟨hr0, by simpa using hr0k⟩
    have hne : (rows.filter (fun r => decide (Precip.monthKey r.1 = k0))).map (fun r => r.2) ≠ [] :=
      List.ne_nil_of_mem (List.mem_map_of_mem (fun r => r.2) hr0f)
    have hmem := maxD_mem _ hne
    rw [hv] at hmem
    obtain ⟨r, hr, hrv⟩ := List.mem_map.mp hmem
    have hrf := List.mem_filter.mp hr
    exact ⟨r, hrf.1, by simpa using hrf.2, hrv⟩
  · intro r hr hkr
    have hrmem : r.2 ∈ (rows.filter (fun r => decide (Precip.monthKey r.1 = k0))).map (fun r => r.2) :=
      List.mem_map_of_mem (fun r => r.2) (List.mem_filter.mpr ⟨hr, by simpa using hkr⟩)
    calc r.2 ≤ Precip.maxD ((rows.filter (fun r => decide (Precip.monthKey r.1 = k0))).map (fun r => r.2)) :=
        le_maxD _ _ hrmem
    _ = v := hv

theorem monthlyMax_keys (rows : Series) :
    (Precip.monthlyMax rows).map Prod.fst = (rows.map (fun r => Precip.monthKey r.1)).dedup := by
  rw [Precip.monthlyMax, List.map_map]
  exact List.map_id _

/-! ## Claim theorems -/

/-- C1: standardization is month-indexed z-scoring — every row produced by
`alinear_data` followed by `anomalias` carries the baseline mean and std of
the calendar month of its timestamp, and its anomaly equals
`(value - mean[month]) / std[month]`; consequently, whenever the std of a
month is nonzero, standardizing the baseline mean itself yields `0` and
standardizing mean + std yields `1`. -/
theorem anomalias_standardization_correct (s : Series) (mean_tp std_tp : Nat → ℚ) :
    (∀ r ∈ Precip.anomalias (Precip.alinear_data s mean_tp std_tp),
        r.mean_tp = mean_tp r.time.month ∧ r.std_tp = std_tp r.time.month ∧
          r.anomalias = (r.tp_daily_sum - mean_tp r.time.month) / std_tp r.time.month) ∧
    (∀ d : Date, std_tp d.month ≠ 0 →
        Precip.anomalias (Precip.alinear_data [(d, mean_tp d.month)] mean_tp std_tp)
            = [⟨d, mean_tp d.month, mean_tp d.month, std_tp d.month, 0⟩] ∧
          Precip.anomalias
              (Precip.alinear_data [(d, mean_tp d.month + std_tp d.month)] mean_tp std_tp)
            = [⟨d, mean_tp d.month + std_tp d.month, mean_tp d.month, std_tp d.month, 1⟩]) := by
  constructor
  · intro r hr
    simp only [Precip.anomalias, Precip.alinear_data, List.map_map, List.mem_map,
      Function.comp] at hr
    obtain ⟨e, he, rfl⟩ := hr
    exact ⟨rfl, rfl, rfl⟩
  · intro d hstd
    constructor
    · simp [Precip.anomalias, Precip.alinear_data, sub_self, zero_div]
    · simp [Precip.anomalias, Precip.alinear_data, add_sub_cancel_left, div_self hstd]

/-- Witness for C1 at a concrete input: one timestamp, baseline mean `5` and
std `2` for every month. -/
theorem anomalias_standardization_witness :
    ((2 : ℚ) ≠ 0) ∧
      Precip.anomalias (Precip.alinear_data [(⟨2000, 1, 1⟩, 5)] (fun _ => 5) (fun _ => 2))
        = [⟨⟨2000, 1, 1⟩, 5, 5, 2, 0⟩] :=
  ⟨by norm_num,
    ((anomalias_standardization_correct [] (fun _ => 5) (fun _ => 2)).2
        ⟨2000, 1, 1⟩ (by norm_num)).1⟩

/-- C2 counterexample: for the 10-day dry/wet pattern of the spec (dry days
have precipitation `0`, wet days `1`), the CDD extractor returns `4`, not the
claimed `3` — the code binarizes wet days (not dry days) to `1`, so the
cumulative sum is `[0,0,0,1,1,1,2,2,2,2]`, whose modal frequency is `4`. -/
theorem cdd_mode_claim_counterexample :
    Precip.cddYearValue patternTenDays = 4 ∧ Precip.cddYearValue patternTenDays ≠ 3 := by
  have h4 : Precip.cddYearValue patternTenDays = 4 := by
    norm_num [Precip.cddYearValue, patternTenDays, Precip.binarize, Precip.cumsum,
      List.range_succ, Precip.count_most_frequent_with_condition, Precip.maxFreq,
      List.count_cons]
  refine ⟨h4, ?_⟩
  rw [h4]
  norm_num

/-- C2 (amended): for every nonempty year of daily precipitation, the CDD
extractor returns the modal frequency (the maximal multiplicity, attained by
some element) of the cumulative sum of the wet indicator when `0` occurs in
that cumulative sum, and the modal frequency minus one otherwise; for the
10-day pattern `[1,1,1,0,1,1,0,1,1,1]` (1 = dry) it returns `4`. -/
theorem cdd_mode_rule_amended :
    (∀ p : List ℚ, p ≠ [] →
        (∃ v ∈ Precip.cumsum (p.map Precip.binarize),
            (Precip.cumsum (p.map Precip.binarize)).count v
              = Precip.maxFreq (Precip.cumsum (p.map Precip.binarize))) ∧
        (∀ v ∈ Precip.cumsum (p.map Precip.binarize),
            (Precip.cumsum (p.map Precip.binarize)).count v
              ≤ Precip.maxFreq (Precip.cumsum (p.map Precip.binarize))) ∧
        Precip.cddYearValue p
          = (if (0 : ℚ) ∈ Precip.cumsum (p.map Precip.binarize)
             then (Precip.maxFreq (Precip.cumsum (p.map Precip.binarize)) : Int)
             else (Precip.maxFreq (Precip.cumsum (p.map Precip.binarize)) : Int) - 1)) ∧
    Precip.cddYearValue patternTenDays = 4 := by
  constructor
  · intro p hp
    have hlen : (Precip.cumsum (p.map Precip.binarize)).length = p.length := by
      simp [Precip.cumsum]
    have hne : Precip.cumsum (p.map Precip.binarize) ≠ [] := by
      intro hnil
      rw [hnil] at hlen
      exact hp (List.length_eq_zero.mp hlen.symm)
    exact ⟨maxFreq_attained _ hne, fun v hv => count_le_maxFreq _ v hv, rfl⟩
  · norm_num [Precip.cddYearValue, patternTenDays, Precip.binarize, Precip.cumsum,
      List.range_succ, Precip.count_most_frequent_with_condition, Precip.maxFreq,
      List.count_cons]

/-- Witness for C2 (amended): the 10-day pattern is nonempty and satisfies
the mode-of-cumsum rule. -/
theorem cdd_mode_rule_witness :
    patternTenDays ≠ [] ∧
      Precip.cddYearValue patternTenDays
        = (if (0 : ℚ) ∈ Precip.cumsum (patternTenDays.map Precip.binarize)
           then (Precip.maxFreq (Precip.cumsum (patternTenDays.map Precip.binarize)) : Int)
           else (Precip.maxFreq (Precip.cumsum (patternTenDays.map Precip.binarize)) : Int) - 1) :=
  ⟨by simp [patternTenDays],
    (cdd_mode_rule_amended.1 patternTenDays (by simp [patternTenDays])).2.2⟩

/-- C4: cross-year CDD blending — with a prior-year carry, months 1 to 11 get
`((12-m)/12) * prior + (m/12) * current` and month 12 gets the current value
exactly; with no prior state (the 1961 bootstrap branch), month `m` gets the
current value scaled by `m/12`; in particular carry 10 and current 20 give 15
at month 6 and 20 at month 12. -/
theorem cdd_blend_correct (prior current : ℚ) :
    (∀ m : Nat, 1 ≤ m → m ≤ 11 →
        Lluvia.calcular_interpolacion_month (some prior) current m
            = ((12 - (m : ℚ)) / 12) * prior + ((m : ℚ) / 12) * current ∧
          (m, ((12 - (m : ℚ)) / 12) * prior + ((m : ℚ) / 12) * current)
            ∈ Lluvia.calcular_interpolacion (some prior) current) ∧
    Lluvia.calcular_interpolacion_month (some prior) current 12 = current ∧
    (12, current) ∈ Lluvia.calcular_interpolacion (some prior) current ∧
    (∀ m : Nat, 1 ≤ m → m ≤ 12 →
        Lluvia.calcular_interpolacion_month none current m = current * ((m : ℚ) / 12) ∧
          (m, current * ((m : ℚ) / 12)) ∈ Lluvia.calcular_interpolacion none current) ∧
    Lluvia.calcular_interpolacion_month (some 10) 20 6 = 15 ∧
    Lluvia.calcular_interpolacion_month (some 10) 20 12 = 20 := by
  have hmem : ∀ (pr : Option ℚ) (m : Nat), 1 ≤ m → m ≤ 12 →
      (m, Lluvia.calcular_interpolacion_month pr current m)
        ∈ Lluvia.calcular_interpolacion pr current := by
    intro pr m h1 h2
    rw [Lluvia.calcular_interpolacion]
    refine List.mem_map.mpr ⟨m - 1, List.mem_range.mpr (by omega), ?_⟩
    have hm : m - 1 + 1 = m := by omega
    rw [hm]
  refine ⟨?_, ?_, ?_, ?_, ?_, ?_⟩
  · intro m h1 h2
    have heq : Lluvia.calcular_interpolacion_month (some prior) current m
        = ((12 - (m : ℚ)) / 12) * prior + ((m : ℚ) / 12) * current := by
      simp only [Lluvia.calcular_interpolacion_month]
      rw [if_neg (by omega)]
    exact ⟨heq, heq ▸ hmem (some prior) m h1 (by omega)⟩
  · simp [Lluvia.calcular_interpolacion_month]
  · simpa [Lluvia.calcular_interpolacion_month] using
      hmem (some prior) 12 (by norm_num) (by norm_num)
  · intro m h1 h2
    have heq : Lluvia.calcular_interpolacion_month none current m
        = current * ((m : ℚ) / 12) := by
      simp only [Lluvia.calcular_interpolacion_month]
    exact ⟨heq, heq ▸ hmem none m h1 h2⟩
  · norm_num [Lluvia.calcular_interpolacion_month]
  · norm_num [Lluvia.calcular_interpolacion_month]

/-- Witness for C4 at month 6 with carry 10 and current value 20. -/
theorem cdd_blend_witness :
    ((1 : Nat) ≤ 6 ∧ (6 : Nat) ≤ 11) ∧
      Lluvia.calcular_interpolacion_month (some 10) 20 6
        = ((12 - ((6 : Nat) : ℚ)) / 12) * 10 + (((6 : Nat) : ℚ) / 12) * 20 :=
  ⟨⟨by norm_num, by norm_num⟩, ((cdd_blend_correct 10 20).1 6 (by norm_num) (by norm_num)).1⟩

/-- C8: a zero standard deviation makes `calculate_anomalies` produce a
non-finite value; the spatial mean is taken only after the cleaning pipeline
(mask infinities to NaN, then fill NaN with 0) has replaced every non-finite
value by `0`, so the mean over `[finite, +inf, finite]` equals the mean over
`[finite, 0, finite]`. -/
theorem nonfinite_masking_correct :
    (∀ c m : ℚ, (CalcularAnomalias.calculate_anomalies c m 0).isFinite = false) ∧
    (∀ (l1 l2 : List Flt) (v : Flt), v.isFinite = false →
        CalcularAnomalias.averages (l1 ++ v :: l2)
          = CalcularAnomalias.averages (l1 ++ Flt.fin 0 :: l2)) ∧
    (∀ a b : ℚ, CalcularAnomalias.averages [Flt.fin a, Flt.inf, Flt.fin b]
        = CalcularAnomalias.averages [Flt.fin a, Flt.fin 0, Flt.fin b]) := by
  refine ⟨?_, ?_, ?_⟩
  · intro c m
    rw [CalcularAnomalias.calculate_anomalies, if_pos rfl]
    rcases lt_trichotomy (c - m) 0 with h | h | h
    · rw [if_neg (by linarith), if_pos h]
      rfl
    · rw [if_neg (by linarith), if_neg (by linarith)]
      rfl
    · rw [if_pos h]
      rfl
  · intro l1 l2 v hv
    have hclean : CalcularAnomalias.anomalies_cleaned v = Flt.fin 0 := by
      cases v with
      | fin q => simp [Flt.isFinite] at hv
      | inf => rfl
      | neginf => rfl
      | nan => rfl
    rw [CalcularAnomalias.averages, CalcularAnomalias.averages, List.map_append,
      List.map_append, List.map_cons, List.map_cons, hclean]
    simp [CalcularAnomalias.anomalies_cleaned, CalcularAnomalias.maskInf,
      CalcularAnomalias.fillna0]
  · intro a b
    simp [CalcularAnomalias.averages, CalcularAnomalias.anomalies_cleaned,
      CalcularAnomalias.maskInf, CalcularAnomalias.fillna0, CalcularAnomalias.toRat]

/-- Witness for C8: an infinity among finite cells is averaged as `0`. -/
theorem nonfinite_masking_witness :
    Flt.inf.isFinite = false ∧
      CalcularAnomalias.averages [Flt.fin 1, Flt.inf, Flt.fin 2]
        = CalcularAnomalias.averages [Flt.fin 1, Flt.fin 0, Flt.fin 2] :=
  ⟨rfl, nonfinite_masking_correct.2.1 [Flt.fin 1] [Flt.fin 2] Flt.inf rfl⟩

/-- C9: the two same-named run-length counters are not equivalent — on the
single-element array `[0]` the `anomalies_precipitation.py` version returns
the modal frequency `1` (because `0` is present), while the
`calcular_anomalias_lluvia.py` version unconditionally subtracts one and
returns `0`, contradicting its own docstring. -/
theorem count_functions_diverge :
    Precip.count_most_frequent_with_condition [0] = 1 ∧
      Lluvia.count_most_frequent_with_condition [0] = 0 := by
  constructor <;>
    norm_num [Precip.count_most_frequent_with_condition,
      Lluvia.count_most_frequent_with_condition, Precip.maxFreq, List.count_cons]

theorem entryAt_some (s : Series) (j : Nat) (h : j < s.length) :
    s[j]? = some (Precip.entryAt s j) := by
  rw [Precip.entryAt, List.getD_eq_getElem?_getD, List.getElem?_eq_getElem h]
  rfl

/-- C3 counterexample: for the daily series `[1,2,3,4,5]` inside one calendar
month, the monthly maximum of the trailing 5-day sums is `15` (the full sum
`1+2+3+4+5`), not the `14` asserted by the spec. -/
theorem rx5day_claim_counterexample :
    Precip.calcular_5_dias_maximo exSingleMonth = [((2000, 1), 15)] ∧
      Precip.calcular_5_dias_maximo exSingleMonth ≠ [((2000, 1), 14)] := by
  have h15 : Precip.calcular_5_dias_maximo exSingleMonth = [((2000, 1), 15)] := by
    norm_num [Precip.calcular_5_dias_maximo, Precip.monthlyMax, Precip.keptRows,
      Precip.maskAt, Precip.entryAt, Precip.rollingVal, Precip.window5, Precip.monthKey,
      Precip.maxD, exSingleMonth, List.range_succ, List.filterMap_cons]
  refine ⟨h15, ?_⟩
  rw [h15]
  norm_num

/-- C3 (amended): the extractor computes at every position the trailing sum
of up to five values (window length `min (i+1) 5`, first entry at position
`i-4`, last entry at position `i`); it keeps a windowed sum only at positions
where the month four positions back equals the current month (so every kept
window starts and ends in the same calendar month number); the monthly output
is the per-`(year, month)` maximum of the kept sums; and for the daily series
`[1,2,3,4,5]` in one month the trailing sums are `[1,3,6,10,15]` with monthly
maximum `15`. -/
theorem rx5day_correct (s : Series) :
    (∀ i, i < s.length →
        (Precip.window5 s i).length = min (i + 1) 5 ∧
        (Precip.window5 s i)[0]? = some (Precip.entryAt s (i - 4)) ∧
        (Precip.window5 s i)[min i 4]? = some (Precip.entryAt s i) ∧
        Precip.rollingVal s i = ((Precip.window5 s i).map (fun e => e.2)).sum) ∧
    (∀ i, i < s.length → Precip.maskAt s i = true →
        4 ≤ i ∧ (Precip.entryAt s (i - 4)).1.month = (Precip.entryAt s i).1.month) ∧
    (∀ i, i < s.length → Precip.maskAt s i = true →
        ((Precip.entryAt s i).1, Precip.rollingVal s i) ∈ Precip.keptRows s) ∧
    (∀ r ∈ Precip.keptRows s, ∃ i, i < s.length ∧ Precip.maskAt s i = true ∧
        r = ((Precip.entryAt s i).1, Precip.rollingVal s i)) ∧
    (∀ k v, (k, v) ∈ Precip.calcular_5_dias_maximo s →
        (∃ r ∈ Precip.keptRows s, Precip.monthKey r.1 = k ∧ r.2 = v) ∧
          ∀ r ∈ Precip.keptRows s, Precip.monthKey r.1 = k → r.2 ≤ v) ∧
    ((List.range 5).map (Precip.rollingVal exSingleMonth) = [1, 3, 6, 10, 15] ∧
      Precip.calcular_5_dias_maximo exSingleMonth = [((2000, 1), 15)]) := by
  refine ⟨?_, ?_, ?_, ?_, ?_, ?_, ?_⟩
  · intro i hi
    refine ⟨?_, ?_, ?_, rfl⟩
    · simp only [Precip.window5, List.length_drop, List.length_take]
      omega
    · rw [Precip.window5, List.getElem?_drop, List.getElem?_take,
        if_pos (by omega : i - 4 + 0 < i + 1)]
      have h4 : i - 4 + 0 = i - 4 := by omega
      rw [h4]
      exact entryAt_some s (i - 4) (by omega)
    · rw [Precip.window5, List.getElem?_drop, List.getElem?_take,
        if_pos (by omega : i - 4 + min i 4 < i + 1)]
      have h4 : i - 4 + min i 4 = i := by omega
      rw [h4]
      exact entryAt_some s i hi
  · intro i hi hm
    rw [Precip.maskAt, Bool.and_eq_true, decide_eq_true_eq, beq_iff_eq] at hm
    exact ⟨hm.1, hm.2.symm⟩
  · intro i hi hm
    exact (keptRows_mem_iff s _).mpr ⟨i, hi, hm, rfl⟩
  · intro r hr
    exact (keptRows_mem_iff s r).mp hr
  · intro k v hkv
    exact monthlyMax_mem (Precip.keptRows s) k v hkv
  · norm_num [Precip.rollingVal, Precip.window5, exSingleMonth, List.range_succ]
  · norm_num [Precip.calcular_5_dias_maximo, Precip.monthlyMax, Precip.keptRows,
      Precip.maskAt, Precip.entryAt, Precip.rollingVal, Precip.window5, Precip.monthKey,
      Precip.maxD, exSingleMonth, List.range_succ, List.filterMap_cons]

/-- Witness for C3 (amended) at position 4 of the single-month series. -/
theorem rx5day_correct_witness :
    (4 < exSingleMonth.length ∧ Precip.maskAt exSingleMonth 4 = true) ∧
      ((Precip.entryAt exSingleMonth 4).1, Precip.rollingVal exSingleMonth 4)
        ∈ Precip.keptRows exSingleMonth :=
  ⟨⟨by decide, by decide⟩, (rx5day_correct exSingleMonth).2.2.1 4 (by decide) (by decide)⟩

theorem icaAt_bind (wind : List (Date × ℚ)) (temp : List (Date × (ℚ × ℚ)))
    (rain drought : List (Date × ℚ)) (d : Date) :
    GraficasFinales.icaAt wind temp rain drought d
      = (GraficasFinales.lookupCol wind d).bind (fun w =>
          (GraficasFinales.lookupCol temp d).bind (fun t =>
            (GraficasFinales.lookupCol rain d).bind (fun p =>
              (GraficasFinales.lookupCol drought d).map (fun dr =>
                (t.1 - t.2 + w + p + dr) / 5)))) := by
  induction wind with
  | nil => rfl
  | cons e rest ih =>
    obtain ⟨d0, w0⟩ := e
    by_cases hdd : d0 = d
    · subst hdd
      simp only [GraficasFinales.icaAt, GraficasFinales.plot_ICA, List.map_cons,
        GraficasFinales.lookupCol, if_pos rfl, Option.some_bind]
      cases ht : GraficasFinales.lookupCol temp d0 with
      | none => rfl
      | some t =>
        obtain ⟨t90, t10⟩ := t
        cases hp : GraficasFinales.lookupCol rain d0 with
        | none => rfl
        | some p =>
          cases hdr : GraficasFinales.lookupCol drought d0 with
          | none => rfl
          | some dr => rfl
    · have hstep :
          GraficasFinales.icaAt ((d0, w0) :: rest) temp rain drought d
            = GraficasFinales.icaAt rest temp rain drought d := by
        simp only [GraficasFinales.icaAt, GraficasFinales.plot_ICA, List.map_cons,
          GraficasFinales.lookupCol, if_neg hdd]
      rw [hstep, ih]
      simp only [GraficasFinales.lookupCol, if_neg hdd]

/-- C5: the composite index — the ICA column has a (non-missing) value at a
date exactly when that date occurs in the wind, temperature (t90 and t10),
rain and drought tables, and at such dates it equals
`(t90 - t10 + wind + rain + drought) / 5`; dates missing from any component
(left merge producing NaN, or absent from the wind table entirely) carry no
ICA value. -/
theorem ica_composite_correct (wind : List (Date × ℚ)) (temp : List (Date × (ℚ × ℚ)))
    (rain drought : List (Date × ℚ))
    (hw : (wind.map Prod.fst).Nodup) (ht : (temp.map Prod.fst).Nodup)
    (hr : (rain.map Prod.fst).Nodup) (hd : (drought.map Prod.fst).Nodup) (d : Date) :
    ((∃ v, GraficasFinales.icaAt wind temp rain drought d = some v) ↔
        (d ∈ wind.map Prod.fst ∧ d ∈ temp.map Prod.fst ∧ d ∈ rain.map Prod.fst ∧
          d ∈ drought.map Prod.fst)) ∧
      ∀ w t90 t10 p dr, (d, w) ∈ wind → (d, (t90, t10)) ∈ temp → (d, p) ∈ rain →
        (d, dr) ∈ drought →
          GraficasFinales.icaAt wind temp rain drought d
            = some ((t90 - t10 + w + p + dr) / 5) := by
  constructor
  · rw [icaAt_bind]
    constructor
    · rintro ⟨v, hv⟩
      rw [Option.bind_eq_some] at hv
      obtain ⟨w, hw0, hv⟩ := hv
      rw [Option.bind_eq_some] at hv
      obtain ⟨t, ht0, hv⟩ := hv
      rw [Option.bind_eq_some] at hv
      obtain ⟨p, hp0, hv⟩ := hv
      rw [Option.map_eq_some'] at hv
      obtain ⟨dr, hdr0, _⟩ := hv
      exact ⟨(lookupCol_isSome_iff wind d).mp ⟨w, hw0⟩,
        (lookupCol_isSome_iff temp d).mp ⟨t, ht0⟩,
        (lookupCol_isSome_iff rain d).mp ⟨p, hp0⟩,
        (lookupCol_isSome_iff drought d).mp ⟨dr, hdr0⟩⟩
    · rintro ⟨hw1, ht1, hp1, hd1⟩
      obtain ⟨w, hw0⟩ := (lookupCol_isSome_iff wind d).mpr hw1
      obtain ⟨t, ht0⟩ := (lookupCol_isSome_iff temp d).mpr ht1
      obtain ⟨p, hp0⟩ := (lookupCol_isSome_iff rain d).mpr hp1
      obtain ⟨dr, hdr0⟩ := (lookupCol_isSome_iff drought d).mpr hd1
      exact ⟨(t.1 - t.2 + w + p + dr) / 5, by rw [hw0, ht0, hp0, hdr0]; rfl⟩
  · intro w t90 t10 p dr hw0 ht0 hp0 hdr0
    rw [icaAt_bind, lookupCol_eq_of_mem wind d w hw hw0,
      lookupCol_eq_of_mem temp d (t90, t10) ht ht0,
      lookupCol_eq_of_mem rain d p hr hp0,
      lookupCol_eq_of_mem drought d dr hd hdr0]
    rfl

/-- Witness for C5: four singleton component tables sharing one date. -/
theorem ica_composite_witness :
    (([((⟨2000, 1, 1⟩ : Date), (1 : ℚ))].map Prod.fst).Nodup ∧
        ((⟨2000, 1, 1⟩ : Date), (1 : ℚ)) ∈ [((⟨2000, 1, 1⟩ : Date), (1 : ℚ))]) ∧
      GraficasFinales.icaAt [(⟨2000, 1, 1⟩, 1)] [(⟨2000, 1, 1⟩, (1, -1))]
          [(⟨2000, 1, 1⟩, 2)] [(⟨2000, 1, 1⟩, 3)] ⟨2000, 1, 1⟩
        = some ((1 - (-1) + 1 + 2 + 3) / 5) :=
  ⟨⟨by simp, by simp⟩,
    (ica_composite_correct [(⟨2000, 1, 1⟩, 1)] [(⟨2000, 1, 1⟩, (1, -1))]
        [(⟨2000, 1, 1⟩, 2)] [(⟨2000, 1, 1⟩, 3)]
        (by simp) (by simp) (by simp) (by simp) ⟨2000, 1, 1⟩).2
      1 1 (-1) 2 3 (by simp) (by simp) (by simp) (by simp)⟩

/-- C6 counterexample: a day with precipitation `0` (below the `0.001`
threshold, hence dry) is binarized to `0`, not to the claimed `dry = 1` —
the indicator marks wet days. -/
theorem binarize_claim_counterexample :
    (0 : ℚ) < 1 / 1000 ∧ Precip.binarize 0 = 0 ∧ Precip.binarize 0 ≠ 1 := by
  norm_num [Precip.binarize]

/-- C6 (amended): binarization maps a day with precipitation at least `0.001`
to `1` and every other day to `0` (the indicator marks wet days, the reverse
of the claimed orientation); the grouped cumulative sum pairs each timestamp
with the sum of the indicator over the samples up to that position belonging
to the same calendar year, so it resets at each year boundary rather than
accumulating globally — as the two-year example shows, restarting at `1` on
the first day of the new year. -/
theorem binarize_cumsum_amended :
    (∀ p : ℚ, p < 1 / 1000 → Precip.binarize p = 0) ∧
    (∀ p : ℚ, 1 / 1000 ≤ p → Precip.binarize p = 1) ∧
    (∀ (s : Series) (i : Nat), i < s.length →
        Precip.entryAt (Precip.cumsumByYear s) i
          = ((Precip.entryAt s i).1,
             (((s.take (i + 1)).filter
                 (fun e => decide (e.1.year = (Precip.entryAt s i).1.year))).map
               (fun e => e.2)).sum)) ∧
    Precip.cumsumByYear exTwoYears
      = [(⟨2000, 12, 30⟩, 1), (⟨2000, 12, 31⟩, 2), (⟨2001, 1, 1⟩, 1), (⟨2001, 1, 2⟩, 2)] := by
  refine ⟨?_, ?_, cumsumByYear_entry, ?_⟩
  · intro p hp
    rw [Precip.binarize, if_pos hp]
  · intro p hp
    rw [Precip.binarize, if_neg (not_lt.mpr hp)]
  · norm_num [Precip.cumsumByYear, Precip.cumsumByYearGo, exTwoYears]

/-- Witness for C6 (amended): the binarization branch at precipitation `0`
and the grouped cumulative sum at the first position of the new year. -/
theorem binarize_cumsum_witness :
    ((0 : ℚ) < 1 / 1000 ∧ Precip.binarize 0 = 0) ∧
      (2 < exTwoYears.length ∧
        Precip.entryAt (Precip.cumsumByYear exTwoYears) 2
          = ((Precip.entryAt exTwoYears 2).1,
             (((exTwoYears.take (2 + 1)).filter
                 (fun e => decide (e.1.year = (Precip.entryAt exTwoYears 2).1.year))).map
               (fun e => e.2)).sum)) :=
  ⟨⟨by norm_num, binarize_cumsum_amended.1 0 (by norm_num)⟩,
    ⟨by norm_num [exTwoYears],
      binarize_cumsum_amended.2.2.1 exTwoYears 2 (by norm_num [exTwoYears])⟩⟩

/-- C7 counterexample: in a series ending with February days that all lie
within four days of the month start (after four January days), every window
of February is masked out, so the extractor produces no value at all for
February — the kept rows and the monthly output are empty, although February
days are present in the input. -/
theorem rx5day_short_month_counterexample :
    (⟨2000, 2, 1⟩ : Date) ∈ exShortFeb.map Prod.fst ∧
      Precip.keptRows exShortFeb = [] ∧
      Precip.calcular_5_dias_maximo exShortFeb = [] := by
  refine ⟨by decide, by decide, by decide⟩

/-- C7 (amended): a month all of whose entries sit at masked positions —
which is what happens to a month whose only days lie within 4 days of the
month start, since its windows either have no position four steps back or
reach into a different month — produces NO value in the monthly output: its
key is absent from the extractor result. -/
theorem rx5day_short_month_amended (s : Series) (y : Int) (m : Nat)
    (h : ∀ i, i < s.length → (Precip.entryAt s i).1.year = y →
        (Precip.entryAt s i).1.month = m → Precip.maskAt s i = false) :
    decide ((y, m) ∈ (Precip.calcular_5_dias_maximo s).map Prod.fst) = false := by
  rw [decide_eq_false_iff_not]
  intro hmem
  rw [Precip.calcular_5_dias_maximo, monthlyMax_keys, List.mem_dedup] at hmem
  obtain ⟨r, hr, hk⟩ := List.mem_map.mp hmem
  obtain ⟨i, hi, hmask, hre⟩ := (keptRows_mem_iff s r).mp hr
  subst hre
  rw [Precip.monthKey, Prod.mk.injEq] at hk
  have hfalse := h i hi hk.1 hk.2
  rw [hmask] at hfalse
  cases hfalse

/-- Witness for C7 (amended): the short-February series, where every
February-2000 entry is masked. -/
theorem rx5day_short_month_witness :
    (∀ i, i < exShortFeb.length → (Precip.entryAt exShortFeb i).1.year = 2000 →
        (Precip.entryAt exShortFeb i).1.month = 2 → Precip.maskAt exShortFeb i = false) ∧
      decide (((2000 : Int), (2 : Nat))
          ∈ (Precip.calcular_5_dias_maximo exShortFeb).map Prod.fst) = false :=
  ⟨by decide, rx5day_short_month_amended exShortFeb 2000 2 (by decide)⟩

theorem anos_validos_mem (s : Series) (y : Int) :
    y ∈ Precip.anos_validos s ↔
      y ∈ (s.map (fun e => e.1.year)).dedup ∧ 365 ≤ Precip.yearCount s y := by
  rw [Precip.anos_validos, List.mem_filter, decide_eq_true_eq]

theorem filtrar_mem_iff (s : Series) (e : Date × ℚ) :
    e ∈ Precip.filtrar_data s ↔ e ∈ s ∧ e.1.year ∈ Precip.anos_validos s := by
  rw [Precip.filtrar_data, List.mem_filter, decide_eq_true_eq]

theorem filtrar_year_slice (s : Series) (y : Int) (hy : 365 ≤ Precip.yearCount s y) :
    (Precip.filtrar_data s).filter (fun e => decide (e.1.year = y))
      = s.filter (fun e => decide (e.1.year = y)) := by
  rw [Precip.filtrar_data, List.filter_filter]
  apply List.filter_congr
  intro e he
  by_cases hey : e.1.year = y
  · have hvalid : e.1.year ∈ Precip.anos_validos s := by
      rw [anos_validos_mem]
      refine ⟨List.mem_dedup.mpr (List.mem_map.mpr ⟨e, he, rfl⟩), ?_⟩
      rw [hey]
      exact hy
    rw [hey] at hvalid
    simp [hey, hvalid]
  · simp [hey]

/-- C10: the CDD baseline silently drops short years — a sample survives the
year filter exactly when its calendar year has at least 365 samples in the
series, every per-year CDD value produced afterwards belongs to a year with
at least 365 samples and is computed from exactly the samples of that year,
and every year with at least 365 samples does contribute a per-year value. -/
theorem short_year_filter_correct (s : Series) :
    (∀ e ∈ s, (e ∈ Precip.filtrar_data s ↔ 365 ≤ Precip.yearCount s e.1.year)) ∧
    (∀ y v, (y, v) ∈ Precip.calcular_interpolacion_per_year s →
        365 ≤ Precip.yearCount s y ∧
          v = Precip.cddYearValue
              ((s.filter (fun e => decide (e.1.year = y))).map (fun e => e.2))) ∧
    (∀ y, y ∈ s.map (fun e => e.1.year) → 365 ≤ Precip.yearCount s y →
        (y, Precip.cddYearValue
            ((s.filter (fun e => decide (e.1.year = y))).map (fun e => e.2)))
          ∈ Precip.calcular_interpolacion_per_year s) := by
  refine ⟨?_, ?_, ?_⟩
  · intro e he
    rw [filtrar_mem_iff, anos_validos_mem]
    constructor
    · rintro ⟨-, -, hc⟩
      exact hc
    · intro hc
      exact ⟨he, List.mem_dedup.mpr (List.mem_map.mpr ⟨e, he, rfl⟩), hc⟩
  · intro y v hyv
    rw [Precip.calcular_interpolacion_per_year] at hyv
    obtain ⟨y0, hy0, hpair⟩ := List.mem_map.mp hyv
    rw [Prod.mk.injEq] at hpair
    obtain ⟨rfl, hval⟩ := hpair
    have hyear : 365 ≤ Precip.yearCount s y0 := by
      obtain ⟨e, he, hey⟩ := List.mem_map.mp (List.mem_dedup.mp hy0)
      have := (filtrar_mem_iff s e).mp he
      rw [anos_validos_mem] at this
      rw [← hey]
      exact this.2.2
    refine ⟨hyear, ?_⟩
    rw [← hval, filtrar_year_slice s y0 hyear]
  · intro y hy hc
    have hvalid : y ∈ Precip.anos_validos s := by
      rw [anos_validos_mem]
      exact ⟨List.mem_dedup.mpr hy, hc⟩
    obtain ⟨e, he, hey⟩ := List.mem_map.mp hy
    have hef : e ∈ Precip.filtrar_data s := by
      rw [filtrar_mem_iff]
      rw [← hey] at hvalid
      exact ⟨he, hvalid⟩
    rw [Precip.calcular_interpolacion_per_year]
    refine List.mem_map.mpr ⟨y, ?_, ?_⟩
    · exact List.mem_dedup.mpr (List.mem_map.mpr ⟨e, hef, hey⟩)
    · rw [filtrar_year_slice s y hc]

/-- Witness for C10: a year-2000 series with exactly 365 samples — the first
sample survives the filter, and year 2000 contributes its CDD value. -/
theorem short_year_filter_witness :
    (((⟨2000, 1, 1⟩ : Date), (0 : ℚ)) ∈ s365W ∧
      (((⟨2000, 1, 1⟩ : Date), (0 : ℚ)) ∈ Precip.filtrar_data s365W ↔
        365 ≤ Precip.yearCount s365W 2000)) ∧
      ((2000 : Int) ∈ s365W.map (fun e => e.1.year) ∧ 365 ≤ Precip.yearCount s365W 2000 ∧
        (2000, Precip.cddYearValue
            ((s365W.filter (fun e => decide (e.1.year = 2000))).map (fun e => e.2)))
          ∈ Precip.calcular_interpolacion_per_year s365W) := by
  have hmem : ((⟨2000, 1, 1⟩ : Date), (0 : ℚ)) ∈ s365W :=
    List.mem_map.mpr ⟨0, List.mem_range.mpr (by norm_num), rfl⟩
  have hcount : Precip.yearCount s365W 2000 = 365 := by
    rw [Precip.yearCount]
    have hall : ∀ e ∈ s365W, decide (e.1.year = (2000 : Int)) = true := by
      intro e he
      obtain ⟨i, hi, hei⟩ := List.mem_map.mp he
      rw [← hei]
      simp
    rw [List.filter_eq_self.mpr hall]
    simp [s365W]
  have hy : (2000 : Int) ∈ s365W.map (fun e => e.1.year) :=
    List.mem_map.mpr ⟨(⟨2000, 1, 1⟩, 0), hmem, rfl⟩
  have hc : 365 ≤ Precip.yearCount s365W 2000 := hcount.ge
  exact ⟨⟨hmem, (short_year_filter_correct s365W).1 _ hmem⟩,
    hy, hc, (short_year_filter_correct s365W).2.2 2000 hy hc⟩
